import Mathlib

/-!
Verification development for the Maya copy-skin-weights tool
(`copy_skin.py`).  The script is a UI front-end: every callback reads the
host scene and the two UI list widgets, issues host commands, and updates
the widgets.  We embed it shallowly: the host scene is a `Scene` record of
query oracles, the mutable UI widgets are a `UIState` record, and each
Python function becomes a pure function
`Scene → UIState → Scene × UIState × List Cmd` whose third component is
the ordered trace of mutating / user-facing host commands it issues
(queries are reads of the records and are not traced).
-/

/-- Identifies one of the two `textScrollList` widgets: Column A (source)
or Column B (target). -/
inductive ListWidget where
  | source
  | target
deriving DecidableEq

/-- The callback a button's `command=` is rewired to by `toggle_mode`. -/
inductive Mode where
  | singleSource
  | oneToOne
deriving DecidableEq

/-- Host commands issued by the tool.  `bindSkinCluster` is
`cmds.skinCluster(joints, target, tsb=True)`, `copySkinWeights` is
`cmds.copySkinWeights(ss=…, ds=…, noMirror=…, surfaceAssociation=…,
influenceAssociation=…)`, the list edits are `cmds.textScrollList(…,
e=True, …)`, and the button edits are `cmds.button(…, e=True, …)` with
the background colour recorded exactly, in tenths of the 0-1 RGB scale
(the script only uses the colours `(1.0, 0.6, 0.0)` and
`(0.4, 0.8, 1.0)`, whose components are exact multiples of 0.1). -/
inductive Cmd where
  | error (msg : String)
  | warning (msg : String)
  | bindSkinCluster (joints : List String) (target : String)
  | copySkinWeights (ss ds : String) (noMirror : Bool)
      (surfaceAssociation influenceAssociation : String)
  | select (obj : String)
  | appendItem (w : ListWidget) (item : String)
  | removeItem (w : ListWidget) (item : String)
  | removeAll (w : ListWidget)
  | editCopyButton (label : String) (command : Mode)
      (backgroundColor : Nat × Nat × Nat)
  | editToggleButtonColor (backgroundColor : Nat × Nat × Nat)
  | setAllowMultiSelection (w : ListWidget) (allow : Bool)
deriving DecidableEq

/-- The host scene, as seen through the queries the script performs.
`relatedSkinCluster` models `mel.eval('findRelatedSkinCluster("…")')`,
which returns the empty string when the object has no skin cluster (the
Python code tests it with `if not …`).  `influences` models
`cmds.skinCluster(sc, q=True, inf=True)`, `bindSkin` gives the name of
the skin cluster `cmds.skinCluster(joints, target, tsb=True)[0]` would
create, `objectType` models `cmds.objectType`, and
`allDescendentTransforms` models `cmds.listRelatives(obj,
allDescendents=True, type="transform")` with `[]` for Python `None`. -/
structure Scene where
  selection : List String
  relatedSkinCluster : String → String
  influences : String → List String
  bindSkin : List String → String → String
  objectType : String → String
  allDescendentTransforms : String → List String

/-- The mutable UI state: the items of the two lists, their widget
selections (`q=True, selectItem=True`), the label of the copy button
(read and written by `toggle_mode`), and the source list's
`allowMultiSelection` flag. -/
structure UIState where
  sourceItems : List String
  targetItems : List String
  sourceSelectedItems : List String
  targetSelectedItems : List String
  copyButtonLabel : String
  sourceAllowMulti : Bool
deriving DecidableEq

/-- Items currently held by a widget. -/
def UIState.items (ui : UIState) : ListWidget → List String
  | ListWidget.source => ui.sourceItems
  | ListWidget.target => ui.targetItems

/-- Effect on the UI state of `cmds.textScrollList(w, e=True, append=obj)`. -/
def UIState.appendOne (ui : UIState) : ListWidget → String → UIState
  | ListWidget.source, obj => { ui with sourceItems := ui.sourceItems ++ [obj] }
  | ListWidget.target, obj => { ui with targetItems := ui.targetItems ++ [obj] }

/-- Effect on the UI state of `cmds.textScrollList(w, e=True,
removeItem=item)`: entries with that text disappear from the list (and
hence from the widget's selection). -/
def UIState.removeOne (ui : UIState) : ListWidget → String → UIState
  | ListWidget.source, item =>
      { ui with sourceItems := ui.sourceItems.filter (fun x => x ≠ item),
                sourceSelectedItems := ui.sourceSelectedItems.filter (fun x => x ≠ item) }
  | ListWidget.target, item =>
      { ui with targetItems := ui.targetItems.filter (fun x => x ≠ item),
                targetSelectedItems := ui.targetSelectedItems.filter (fun x => x ≠ item) }

/-- The append loop shared by `add_to_source` and `add_to_target`:
`for obj in objs: if obj not in existing_items: append(obj)`.  Note the
membership test is against the snapshot `existing_items` taken before
the loop, exactly as in the Python code. -/
def addLoop (w : ListWidget) (existing_items : List String) :
    List String → UIState → UIState × List Cmd
  | [], ui => (ui, [])
  | obj :: rest, ui =>
      if obj ∈ existing_items then addLoop w existing_items rest ui
      else
        let step := addLoop w existing_items rest (ui.appendOne w obj)
        (step.1, Cmd.appendItem w obj :: step.2)

/-- The removal loop shared by the two remove callbacks:
`for item in selected_items: removeItem(item)`. -/
def removeLoop (w : ListWidget) : List String → UIState → UIState × List Cmd
  | [], ui => (ui, [])
  | item :: rest, ui =>
      let step := removeLoop w rest (ui.removeOne w item)
      (step.1, Cmd.removeItem w item :: step.2)

/-- Embedding of `copy_skin_weights(source, target)`.  It queries the
source's skin cluster (error if absent), binds the target to the
source's influence joints when the target is unbound (which updates the
scene's skin-cluster map), then issues the `copySkinWeights` call,
selects the target and reports success. -/
def copy_skin_weights (source target : String) (sc : Scene) (ui : UIState) :
    Scene × UIState × List Cmd :=
  let source_skin_cluster := sc.relatedSkinCluster source
  if source_skin_cluster = "" then
    (sc, ui, [Cmd.error "Source object has no skin cluster."])
  else
    let target_skin_cluster := sc.relatedSkinCluster target
    if target_skin_cluster = "" then
      let joints := sc.influences source_skin_cluster
      let new_cluster := sc.bindSkin joints target
      let sc2 : Scene :=
        { sc with
            relatedSkinCluster :=
              fun o => if o = target then new_cluster else sc.relatedSkinCluster o,
            selection := [target] }
      (sc2, ui,
        [Cmd.bindSkinCluster joints target,
         Cmd.copySkinWeights source_skin_cluster new_cluster true
           "closestPoint" "closestJoint",
         Cmd.select target,
         Cmd.warning ("Skin weights copied from " ++ source ++ " to " ++ target ++ ".")])
    else
      let sc2 : Scene := { sc with selection := [target] }
      (sc2, ui,
        [Cmd.copySkinWeights source_skin_cluster target_skin_cluster true
           "closestPoint" "closestJoint",
         Cmd.select target,
         Cmd.warning ("Skin weights copied from " ++ source ++ " to " ++ target ++ ".")])

/-- Embedding of `add_to_source()`. -/
def add_to_source (sc : Scene) (ui : UIState) : Scene × UIState × List Cmd :=
  let selected := sc.selection
  if selected ≠ [] then
    let existing_items := ui.sourceItems
    let step := addLoop ListWidget.source existing_items selected ui
    (sc, step.1, step.2)
  else
    (sc, ui, [Cmd.warning "No object selected."])

/-- The candidate-collection loop of `add_to_target()`: a selected
transform contributes its descendant transforms (or itself when it has
none); any other object contributes itself. -/
def gatherTargets (sc : Scene) : List String → List String
  | [] => []
  | obj :: rest =>
      (if sc.objectType obj = "transform" then
        let children := sc.allDescendentTransforms obj
        if children ≠ [] then children else [obj]
      else [obj]) ++ gatherTargets sc rest

/-- Embedding of `add_to_target()`. -/
def add_to_target (sc : Scene) (ui : UIState) : Scene × UIState × List Cmd :=
  let selected := sc.selection
  if selected ≠ [] then
    let all_objects_to_add := gatherTargets sc selected
    let existing_items := ui.targetItems
    let step := addLoop ListWidget.target existing_items all_objects_to_add ui
    (sc, step.1, step.2)
  else
    (sc, ui, [Cmd.warning "No object selected."])

/-- Embedding of `remove_selected_from_source()`. -/
def remove_selected_from_source (sc : Scene) (ui : UIState) :
    Scene × UIState × List Cmd :=
  let selected_items := ui.sourceSelectedItems
  if selected_items ≠ [] then
    let step := removeLoop ListWidget.source selected_items ui
    (sc, step.1, step.2)
  else
    (sc, ui, [Cmd.warning "No item selected in the list."])

/-- Embedding of `remove_selected_from_target()`. -/
def remove_selected_from_target (sc : Scene) (ui : UIState) :
    Scene × UIState × List Cmd :=
  let selected_items := ui.targetSelectedItems
  if selected_items ≠ [] then
    let step := removeLoop ListWidget.target selected_items ui
    (sc, step.1, step.2)
  else
    (sc, ui, [Cmd.warning "No item selected in the list."])

/-- The loop `for target in target_items: copy_skin_weights(source,
target)`, threading the scene (a bind performed for one target is
visible afterwards). -/
def copyLoop (source : String) : List String → Scene → UIState →
    Scene × UIState × List Cmd
  | [], sc, ui => (sc, ui, [])
  | target :: rest, sc, ui =>
      let step := copy_skin_weights source target sc ui
      let step2 := copyLoop source rest step.1 step.2.1
      (step2.1, step2.2.1, step.2.2 ++ step2.2.2)

/-- Embedding of `copy_weights_button_pressed()` (single-source mode). -/
def copy_weights_button_pressed (sc : Scene) (ui : UIState) :
    Scene × UIState × List Cmd :=
  let source_items := ui.sourceItems
  let target_items := ui.targetItems
  match source_items with
  | [] => (sc, ui, [Cmd.warning "Please add a source object to Column A."])
  | source :: _ =>
      if target_items = [] then
        (sc, ui, [Cmd.warning "Please add at least one target object to Column B."])
      else
        copyLoop source target_items sc ui

/-- The loop `for source, target in zip(source_items, target_items):
copy_skin_weights(source, target)`. -/
def copyPairsLoop : List (String × String) → Scene → UIState →
    Scene × UIState × List Cmd
  | [], sc, ui => (sc, ui, [])
  | (source, target) :: rest, sc, ui =>
      let step := copy_skin_weights source target sc ui
      let step2 := copyPairsLoop rest step.1 step.2.1
      (step2.1, step2.2.1, step.2.2 ++ step2.2.2)

/-- Embedding of `copy_weights_one_to_one()`. -/
def copy_weights_one_to_one (sc : Scene) (ui : UIState) :
    Scene × UIState × List Cmd :=
  let source_items := ui.sourceItems
  let target_items := ui.targetItems
  if source_items = [] then
    (sc, ui, [Cmd.warning "Please add at least one source object to Column A."])
  else if target_items = [] then
    (sc, ui, [Cmd.warning "Please add at least one target object to Column B."])
  else if source_items.length ≠ target_items.length then
    (sc, ui, [Cmd.warning "The number of objects in Column A and Column B must be the same."])
  else
    copyPairsLoop (source_items.zip target_items) sc ui

/-- Embedding of `clear_source_list()`: `removeAll` empties the widget. -/
def clear_source_list (sc : Scene) (ui : UIState) : Scene × UIState × List Cmd :=
  (sc, { ui with sourceItems := [], sourceSelectedItems := [] },
   [Cmd.removeAll ListWidget.source])

/-- Embedding of `clear_target_list()`. -/
def clear_target_list (sc : Scene) (ui : UIState) : Scene × UIState × List Cmd :=
  (sc, { ui with targetItems := [], targetSelectedItems := [] },
   [Cmd.removeAll ListWidget.target])

/-- Background colour `(1.0, 0.6, 0.0)` used in one-to-one mode, in
tenths. -/
def orangeColor : Nat × Nat × Nat := (10, 6, 0)

/-- Background colour `(0.4, 0.8, 1.0)` used in single-source mode, in
tenths. -/
def blueColor : Nat × Nat × Nat := (4, 8, 10)

/-- Embedding of `toggle_mode()`: the current mode is read back from the
copy button's label, and the branch rewires the copy button (label,
command, colour), recolours the toggle button and sets the source
list's multi-selection flag. -/
def toggle_mode (sc : Scene) (ui : UIState) : Scene × UIState × List Cmd :=
  let current_mode := ui.copyButtonLabel
  if current_mode = "Copy Skin Weights (Single Source)" then
    (sc,
     { ui with copyButtonLabel := "Copy Skin Weights (One-to-One)",
               sourceAllowMulti := true },
     [Cmd.editCopyButton "Copy Skin Weights (One-to-One)" Mode.oneToOne orangeColor,
      Cmd.editToggleButtonColor orangeColor,
      Cmd.setAllowMultiSelection ListWidget.source true])
  else
    (sc,
     { ui with copyButtonLabel := "Copy Skin Weights (Single Source)",
               sourceAllowMulti := false },
     [Cmd.editCopyButton "Copy Skin Weights (Single Source)" Mode.singleSource blueColor,
      Cmd.editToggleButtonColor blueColor,
      Cmd.setAllowMultiSelection ListWidget.source false])

/-- Embedding of `sort_column_a()`: Python's `sorted` on strings is the
lexicographic (code-point) order, which is the `LinearOrder` on
`String`; the widget is emptied and refilled in sorted order. -/
def sort_column_a (sc : Scene) (ui : UIState) : Scene × UIState × List Cmd :=
  let items := ui.sourceItems
  if items ≠ [] then
    let sorted_items := items.mergeSort
    (sc,
     { ui with sourceItems := sorted_items, sourceSelectedItems := [] },
     Cmd.removeAll ListWidget.source ::
       sorted_items.map (Cmd.appendItem ListWidget.source))
  else
    (sc, ui, [])

/-- Embedding of `sort_column_b()`. -/
def sort_column_b (sc : Scene) (ui : UIState) : Scene × UIState × List Cmd :=
  let items := ui.targetItems
  if items ≠ [] then
    let sorted_items := items.mergeSort
    (sc,
     { ui with targetItems := sorted_items, targetSelectedItems := [] },
     Cmd.removeAll ListWidget.target ::
       sorted_items.map (Cmd.appendItem ListWidget.target))
  else
    (sc, ui, [])

/-! Concrete fixture states used by witnesses and counterexamples. -/

/-- Concrete scene: two plain mesh objects selected, no object skinned. -/
def sceneAB : Scene :=
  { selection := ["objA", "objB"]
    relatedSkinCluster := fun _ => ""
    influences := fun _ => []
    bindSkin := fun _ _ => ""
    objectType := fun _ => "mesh"
    allDescendentTransforms := fun _ => [] }

/-- Concrete scene with nothing selected. -/
def sceneNoSel : Scene := { sceneAB with selection := [] }

/-- Concrete scene where object `src` carries skin cluster `skinCluster1`
and every other object is unskinned. -/
def sceneSkinned : Scene :=
  { selection := []
    relatedSkinCluster := fun o => if o = "src" then "skinCluster1" else ""
    influences := fun _ => ["joint1", "joint2"]
    bindSkin := fun _ target => "skinCluster_" ++ target
    objectType := fun _ => "mesh"
    allDescendentTransforms := fun _ => [] }

/-- UI state with both lists empty, in single-source mode. -/
def uiEmpty : UIState :=
  { sourceItems := []
    targetItems := []
    sourceSelectedItems := []
    targetSelectedItems := []
    copyButtonLabel := "Copy Skin Weights (Single Source)"
    sourceAllowMulti := false }

/-- Bool test for a `copySkinWeights` command. -/
def Cmd.isCopySkinWeights : Cmd → Bool
  | Cmd.copySkinWeights _ _ _ _ _ => true
  | _ => false

/-- C1: `copy_skin_weights` delegates the transfer entirely to the host:
every `copySkinWeights` command it issues has `noMirror=True`,
`surfaceAssociation='closestPoint'` and `influenceAssociation='closestJoint'`,
and whenever the source object has a skin cluster the trace contains
exactly one such command (the program computes no association or
interpolation itself). -/
theorem copy_skin_weights_delegates (sc : Scene) (ui : UIState)
    (source target : String) :
    (∀ c ∈ (copy_skin_weights source target sc ui).2.2,
        ∀ ss ds nm sa ia, c = Cmd.copySkinWeights ss ds nm sa ia →
          nm = true ∧ sa = "closestPoint" ∧ ia = "closestJoint") ∧
    (sc.relatedSkinCluster source ≠ "" →
      ((copy_skin_weights source target sc ui).2.2.countP Cmd.isCopySkinWeights) = 1) := by
  unfold copy_skin_weights
  by_cases h1 : sc.relatedSkinCluster source = "" <;>
    by_cases h2 : sc.relatedSkinCluster target = "" <;>
      simp [h1, h2, List.countP_cons, Cmd.isCopySkinWeights] <;>
      (intro ss ds sa ia _ _ h3 h4; exact ⟨h3.symm, h4.symm⟩)

/-- Witness for C1 at a concrete skinned scene. -/
theorem copy_skin_weights_delegates_witness :
    ((copy_skin_weights "src" "tgt" sceneSkinned uiEmpty).2.2.countP Cmd.isCopySkinWeights) = 1 :=
  (copy_skin_weights_delegates sceneSkinned uiEmpty "src" "tgt").2 (by decide)

/-- C2: when the source object has no skin cluster, `copy_skin_weights`
surfaces exactly the host error and stops: no bind and no weight-copy
command is issued, and scene and UI state are unchanged. -/
theorem copy_skin_weights_no_source_cluster (sc : Scene) (ui : UIState)
    (source target : String) (h : sc.relatedSkinCluster source = "") :
    copy_skin_weights source target sc ui =
      (sc, ui, [Cmd.error "Source object has no skin cluster."]) := by
  unfold copy_skin_weights
  simp [h]

/-- Witness for C2: in `sceneAB` no object is skinned. -/
theorem copy_skin_weights_no_source_cluster_witness :
    copy_skin_weights "objA" "objB" sceneAB uiEmpty =
      (sceneAB, uiEmpty, [Cmd.error "Source object has no skin cluster."]) :=
  copy_skin_weights_no_source_cluster sceneAB uiEmpty "objA" "objB" rfl

/-- C7: with nothing selected in the scene, `add_to_source` and
`add_to_target` each warn "No object selected." and leave the scene, the
source list and the target list unchanged. -/
theorem add_callbacks_empty_selection (sc : Scene) (ui : UIState)
    (h : sc.selection = []) :
    add_to_source sc ui = (sc, ui, [Cmd.warning "No object selected."]) ∧
    add_to_target sc ui = (sc, ui, [Cmd.warning "No object selected."]) := by
  unfold add_to_source add_to_target
  simp [h]

/-- Witness for C7 at a concrete empty-selection scene. -/
theorem add_callbacks_empty_selection_witness :
    add_to_source sceneNoSel uiEmpty =
      (sceneNoSel, uiEmpty, [Cmd.warning "No object selected."]) ∧
    add_to_target sceneNoSel uiEmpty =
      (sceneNoSel, uiEmpty, [Cmd.warning "No object selected."]) :=
  add_callbacks_empty_selection sceneNoSel uiEmpty rfl

/-- The copy helper never edits the UI widgets: it returns the UI state
unchanged, and its scene result and command trace do not depend on it. -/
theorem copy_skin_weights_ui (source target : String) (sc : Scene) (ui ui2 : UIState) :
    copy_skin_weights source target sc ui =
      ((copy_skin_weights source target sc ui2).1, ui,
       (copy_skin_weights source target sc ui2).2.2) := by
  unfold copy_skin_weights
  by_cases h1 : sc.relatedSkinCluster source = "" <;>
    by_cases h2 : sc.relatedSkinCluster target = "" <;>
      simp [h1, h2]

/-- The single-source copy loop likewise leaves the UI state unchanged
and produces a scene and trace independent of it. -/
theorem copyLoop_ui (source : String) (ts : List String) (sc : Scene) (ui ui2 : UIState) :
    copyLoop source ts sc ui =
      ((copyLoop source ts sc ui2).1, ui, (copyLoop source ts sc ui2).2.2) := by
  induction ts generalizing sc ui ui2 with
  | nil => simp [copyLoop]
  | cons t rest ih =>
      simp only [copyLoop]
      rw [copy_skin_weights_ui source t sc ui ui2,
          ih ((copy_skin_weights source t sc ui2).1) ui
            ((copy_skin_weights source t sc ui2).2.1)]

/-- C3: in single-source mode, with both lists non-empty, the button
callback runs `copy_skin_weights` once per target item in the target
list's order, always with the first source item as source, and its
command trace does not depend on the source items after the first. -/
theorem copy_weights_button_uses_first_source (sc : Scene) (ui : UIState)
    (s : String) (rest rest2 : List String)
    (hs : ui.sourceItems = s :: rest) (ht : ui.targetItems ≠ []) :
    copy_weights_button_pressed sc ui = copyLoop s ui.targetItems sc ui ∧
    (copy_weights_button_pressed sc { ui with sourceItems := s :: rest2 }).2.2 =
      (copy_weights_button_pressed sc ui).2.2 := by
  have h1 : copy_weights_button_pressed sc ui = copyLoop s ui.targetItems sc ui := by
    unfold copy_weights_button_pressed
    rw [hs]
    simp [ht]
  have h2 : copy_weights_button_pressed sc { ui with sourceItems := s :: rest2 } =
      copyLoop s ui.targetItems sc { ui with sourceItems := s :: rest2 } := by
    unfold copy_weights_button_pressed
    simp [ht]
  refine ⟨h1, ?_⟩
  rw [h1, h2, copyLoop_ui s ui.targetItems sc { ui with sourceItems := s :: rest2 } ui]

/-- Fixture: two sources and one target, single-source mode. -/
def uiC3 : UIState := { uiEmpty with sourceItems := ["s1", "s2"], targetItems := ["t1"] }

/-- Witness for C3 at a concrete two-source state. -/
theorem copy_weights_button_uses_first_source_witness :
    copy_weights_button_pressed sceneAB uiC3 = copyLoop "s1" uiC3.targetItems sceneAB uiC3 ∧
    (copy_weights_button_pressed sceneAB { uiC3 with sourceItems := ["s1", "zz"] }).2.2 =
      (copy_weights_button_pressed sceneAB uiC3).2.2 :=
  copy_weights_button_uses_first_source sceneAB uiC3 "s1" ["s2"] ["zz"] rfl (by decide)

/-- C4: an empty source list, an empty target list, or (for one-to-one
mode) a length mismatch makes the copy callbacks issue exactly one
warning command and nothing else, leaving the scene and both lists
unchanged; no retry happens. -/
theorem copy_callbacks_guard_warnings (sc : Scene) (ui : UIState) :
    (ui.sourceItems = [] →
      copy_weights_button_pressed sc ui =
        (sc, ui, [Cmd.warning "Please add a source object to Column A."])) ∧
    (ui.sourceItems ≠ [] → ui.targetItems = [] →
      copy_weights_button_pressed sc ui =
        (sc, ui, [Cmd.warning "Please add at least one target object to Column B."])) ∧
    (ui.sourceItems = [] →
      copy_weights_one_to_one sc ui =
        (sc, ui, [Cmd.warning "Please add at least one source object to Column A."])) ∧
    (ui.sourceItems ≠ [] → ui.targetItems = [] →
      copy_weights_one_to_one sc ui =
        (sc, ui, [Cmd.warning "Please add at least one target object to Column B."])) ∧
    (ui.sourceItems ≠ [] → ui.targetItems ≠ [] →
      ui.sourceItems.length ≠ ui.targetItems.length →
      copy_weights_one_to_one sc ui =
        (sc, ui, [Cmd.warning "The number of objects in Column A and Column B must be the same."])) := by
  refine ⟨?_, ?_, ?_, ?_, ?_⟩
  · intro h
    unfold copy_weights_button_pressed
    rw [h]
  · intro h1 h2
    obtain ⟨s, rest, hs⟩ := List.exists_cons_of_ne_nil h1
    unfold copy_weights_button_pressed
    rw [hs]
    simp [h2]
  · intro h
    unfold copy_weights_one_to_one
    simp [h]
  · intro h1 h2
    unfold copy_weights_one_to_one
    simp [h1, h2]
  · intro h1 h2 h3
    unfold copy_weights_one_to_one
    simp [h1, h2, h3]

/-- Fixture: one source, no targets. -/
def uiOnlySource : UIState := { uiEmpty with sourceItems := ["src"] }

/-- Fixture: one source, two targets (a length mismatch for one-to-one). -/
def uiMismatch : UIState :=
  { uiEmpty with sourceItems := ["src"], targetItems := ["t1", "t2"] }

/-- Witness for C4 covering all five guard branches at concrete states. -/
theorem copy_callbacks_guard_warnings_witness :
    copy_weights_button_pressed sceneAB uiEmpty =
      (sceneAB, uiEmpty, [Cmd.warning "Please add a source object to Column A."]) ∧
    copy_weights_button_pressed sceneAB uiOnlySource =
      (sceneAB, uiOnlySource, [Cmd.warning "Please add at least one target object to Column B."]) ∧
    copy_weights_one_to_one sceneAB uiEmpty =
      (sceneAB, uiEmpty, [Cmd.warning "Please add at least one source object to Column A."]) ∧
    copy_weights_one_to_one sceneAB uiOnlySource =
      (sceneAB, uiOnlySource, [Cmd.warning "Please add at least one target object to Column B."]) ∧
    copy_weights_one_to_one sceneAB uiMismatch =
      (sceneAB, uiMismatch, [Cmd.warning "The number of objects in Column A and Column B must be the same."]) :=
  ⟨(copy_callbacks_guard_warnings sceneAB uiEmpty).1 rfl,
   (copy_callbacks_guard_warnings sceneAB uiOnlySource).2.1 (by decide) rfl,
   (copy_callbacks_guard_warnings sceneAB uiEmpty).2.2.1 rfl,
   (copy_callbacks_guard_warnings sceneAB uiOnlySource).2.2.2.1 (by decide) rfl,
   (copy_callbacks_guard_warnings sceneAB uiMismatch).2.2.2.2 (by decide) (by decide) (by decide)⟩

/-- Bool test for commands of the weight-copy pipeline: bind, copy,
select and the user-facing messages. -/
def Cmd.isCopyPipeline : Cmd → Bool
  | Cmd.bindSkinCluster _ _ => true
  | Cmd.copySkinWeights _ _ _ _ _ => true
  | Cmd.select _ => true
  | Cmd.warning _ => true
  | Cmd.error _ => true
  | _ => false

/-- Every command the append loop issues is an append to its widget. -/
theorem addLoop_cmds (w : ListWidget) (ex : List String) :
    ∀ (objs : List String) (ui : UIState) (c : Cmd),
      c ∈ (addLoop w ex objs ui).2 → ∃ o, c = Cmd.appendItem w o := by
  intro objs
  induction objs with
  | nil => intro ui c h; simp [addLoop] at h
  | cons obj rest ih =>
      intro ui c h
      by_cases hm : obj ∈ ex
      · simp [addLoop, hm] at h
        exact ih _ _ h
      · simp [addLoop, hm] at h
        rcases h with h | h
        · exact ⟨obj, h⟩
        · exact ih _ _ h

/-- Every command the removal loop issues is a removal from its widget. -/
theorem removeLoop_cmds (w : ListWidget) :
    ∀ (items : List String) (ui : UIState) (c : Cmd),
      c ∈ (removeLoop w items ui).2 → ∃ o, c = Cmd.removeItem w o := by
  intro items
  induction items with
  | nil => intro ui c h; simp [removeLoop] at h
  | cons item rest ih =>
      intro ui c h
      simp [removeLoop] at h
      rcases h with h | h
      · exact ⟨item, h⟩
      · exact ih _ _ h

/-- Every command `copy_skin_weights` issues belongs to the copy pipeline. -/
theorem copy_skin_weights_cmds (source target : String) (sc : Scene) (ui : UIState) :
    ∀ c ∈ (copy_skin_weights source target sc ui).2.2, Cmd.isCopyPipeline c = true := by
  unfold copy_skin_weights
  by_cases h1 : sc.relatedSkinCluster source = "" <;>
    by_cases h2 : sc.relatedSkinCluster target = "" <;>
      simp [h1, h2, Cmd.isCopyPipeline]

/-- Every command the single-source loop issues belongs to the copy
pipeline. -/
theorem copyLoop_cmds (source : String) :
    ∀ (ts : List String) (sc : Scene) (ui : UIState) (c : Cmd),
      c ∈ (copyLoop source ts sc ui).2.2 → Cmd.isCopyPipeline c = true := by
  intro ts
  induction ts with
  | nil => intro sc ui c h; simp [copyLoop] at h
  | cons t rest ih =>
      intro sc ui c h
      simp only [copyLoop, List.mem_append] at h
      rcases h with h | h
      · exact copy_skin_weights_cmds source t sc ui c h
      · exact ih _ _ _ h

/-- Every command the one-to-one loop issues belongs to the copy
pipeline. -/
theorem copyPairsLoop_cmds :
    ∀ (ps : List (String × String)) (sc : Scene) (ui : UIState) (c : Cmd),
      c ∈ (copyPairsLoop ps sc ui).2.2 → Cmd.isCopyPipeline c = true := by
  intro ps
  induction ps with
  | nil => intro sc ui c h; simp [copyPairsLoop] at h
  | cons p rest ih =>
      obtain ⟨s, t⟩ := p
      intro sc ui c h
      simp only [copyPairsLoop, List.mem_append] at h
      rcases h with h | h
      · exact copy_skin_weights_cmds s t sc ui c h
      · exact ih _ _ _ h

/-- C5 counterexample: with two objects selected and an empty source
list, one press of "Add Selected to Column A" issues two host commands,
not exactly one. -/
theorem add_to_source_issues_two_commands :
    (add_to_source sceneAB uiEmpty).2.2 =
      [Cmd.appendItem ListWidget.source "objA", Cmd.appendItem ListWidget.source "objB"] ∧
    (add_to_source sceneAB uiEmpty).2.2.length ≠ 1 := by
  constructor
  · decide
  · decide

/-- Every command trace of the append loop is exactly one append, in
order, per object of the candidate list that is absent from the
snapshot `existing_items`. -/
theorem addLoop_trace (w : ListWidget) (ex : List String) :
    ∀ (objs : List String) (ui : UIState),
      (addLoop w ex objs ui).2 =
        (objs.filter (fun o => decide (o ∉ ex))).map (Cmd.appendItem w) := by
  intro objs
  induction objs with
  | nil => intro ui; simp [addLoop]
  | cons obj rest ih =>
      intro ui
      by_cases hm : obj ∈ ex
      · simp only [addLoop, if_pos hm]
        rw [ih ui]
        simp [hm]
      · simp only [addLoop, if_neg hm]
        rw [ih (ui.appendOne w obj)]
        simp [hm]

/-- The command trace of the removal loop is exactly one removal per
item, in order. -/
theorem removeLoop_trace (w : ListWidget) :
    ∀ (items : List String) (ui : UIState),
      (removeLoop w items ui).2 = items.map (Cmd.removeItem w) := by
  intro items
  induction items with
  | nil => intro ui; simp [removeLoop]
  | cons item rest ih =>
      intro ui
      simp only [removeLoop]
      rw [ih (ui.removeOne w item)]
      simp

/-- C5 (amended): each UI callback forwards its action to host commands
of the single corresponding kind, with the exact sequence determined by
the affected items: with a non-empty scene selection the add callbacks
issue exactly one append per entry of their candidate list absent from
the pre-loop snapshot of their column, in order; the remove callbacks
exactly one removal per selected list item, in order; the clear
callbacks exactly one removeAll; the sort callbacks, on a non-empty
column, exactly one removeAll followed by one append per item in sorted
order, and nothing on an empty column; `toggle_mode` exactly the three
reconfiguration commands of the mode being entered; the copy callbacks
only weight-copy pipeline commands (bind, copy, select, message); and
with nothing to act on the add and remove callbacks issue exactly one
warning. -/
theorem callbacks_forward_their_action (sc : Scene) (ui : UIState) :
    ((sc.selection ≠ [] →
        (add_to_source sc ui).2.2 =
          (sc.selection.filter (fun o => decide (o ∉ ui.sourceItems))).map
            (Cmd.appendItem ListWidget.source)) ∧
     (sc.selection = [] →
        (add_to_source sc ui).2.2 = [Cmd.warning "No object selected."])) ∧
    ((sc.selection ≠ [] →
        (add_to_target sc ui).2.2 =
          ((gatherTargets sc sc.selection).filter
              (fun o => decide (o ∉ ui.targetItems))).map
            (Cmd.appendItem ListWidget.target)) ∧
     (sc.selection = [] →
        (add_to_target sc ui).2.2 = [Cmd.warning "No object selected."])) ∧
    ((ui.sourceSelectedItems ≠ [] →
        (remove_selected_from_source sc ui).2.2 =
          ui.sourceSelectedItems.map (Cmd.removeItem ListWidget.source)) ∧
     (ui.sourceSelectedItems = [] →
        (remove_selected_from_source sc ui).2.2 =
          [Cmd.warning "No item selected in the list."])) ∧
    ((ui.targetSelectedItems ≠ [] →
        (remove_selected_from_target sc ui).2.2 =
          ui.targetSelectedItems.map (Cmd.removeItem ListWidget.target)) ∧
     (ui.targetSelectedItems = [] →
        (remove_selected_from_target sc ui).2.2 =
          [Cmd.warning "No item selected in the list."])) ∧
    (clear_source_list sc ui).2.2 = [Cmd.removeAll ListWidget.source] ∧
    (clear_target_list sc ui).2.2 = [Cmd.removeAll ListWidget.target] ∧
    ((ui.sourceItems ≠ [] →
        (sort_column_a sc ui).2.2 =
          Cmd.removeAll ListWidget.source ::
            (ui.sourceItems.mergeSort).map (Cmd.appendItem ListWidget.source)) ∧
     (ui.sourceItems = [] → (sort_column_a sc ui).2.2 = [])) ∧
    ((ui.targetItems ≠ [] →
        (sort_column_b sc ui).2.2 =
          Cmd.removeAll ListWidget.target ::
            (ui.targetItems.mergeSort).map (Cmd.appendItem ListWidget.target)) ∧
     (ui.targetItems = [] → (sort_column_b sc ui).2.2 = [])) ∧
    ((ui.copyButtonLabel = "Copy Skin Weights (Single Source)" →
        (toggle_mode sc ui).2.2 =
          [Cmd.editCopyButton "Copy Skin Weights (One-to-One)" Mode.oneToOne orangeColor,
           Cmd.editToggleButtonColor orangeColor,
           Cmd.setAllowMultiSelection ListWidget.source true]) ∧
     (ui.copyButtonLabel ≠ "Copy Skin Weights (Single Source)" →
        (toggle_mode sc ui).2.2 =
          [Cmd.editCopyButton "Copy Skin Weights (Single Source)" Mode.singleSource blueColor,
           Cmd.editToggleButtonColor blueColor,
           Cmd.setAllowMultiSelection ListWidget.source false])) ∧
    (∀ c ∈ (copy_weights_button_pressed sc ui).2.2, Cmd.isCopyPipeline c = true) ∧
    (∀ c ∈ (copy_weights_one_to_one sc ui).2.2, Cmd.isCopyPipeline c = true) := by
  refine ⟨⟨?_, ?_⟩, ⟨?_, ?_⟩, ⟨?_, ?_⟩, ⟨?_, ?_⟩, ?_, ?_, ⟨?_, ?_⟩, ⟨?_, ?_⟩, ⟨?_, ?_⟩, ?_, ?_⟩
  · intro h
    have ha : (add_to_source sc ui).2.2 =
        (addLoop ListWidget.source ui.sourceItems sc.selection ui).2 := by
      unfold add_to_source
      simp [h]
    rw [ha, addLoop_trace]
  · intro h
    unfold add_to_source
    simp [h]
  · intro h
    have ha : (add_to_target sc ui).2.2 =
        (addLoop ListWidget.target ui.targetItems (gatherTargets sc sc.selection) ui).2 := by
      unfold add_to_target
      simp [h]
    rw [ha, addLoop_trace]
  · intro h
    unfold add_to_target
    simp [h]
  · intro h
    have ha : (remove_selected_from_source sc ui).2.2 =
        (removeLoop ListWidget.source ui.sourceSelectedItems ui).2 := by
      unfold remove_selected_from_source
      simp [h]
    rw [ha, removeLoop_trace]
  · intro h
    unfold remove_selected_from_source
    simp [h]
  · intro h
    have ha : (remove_selected_from_target sc ui).2.2 =
        (removeLoop ListWidget.target ui.targetSelectedItems ui).2 := by
      unfold remove_selected_from_target
      simp [h]
    rw [ha, removeLoop_trace]
  · intro h
    unfold remove_selected_from_target
    simp [h]
  · rfl
  · rfl
  · intro h
    unfold sort_column_a
    simp [h]
  · intro h
    unfold sort_column_a
    simp [h]
  · intro h
    unfold sort_column_b
    simp [h]
  · intro h
    unfold sort_column_b
    simp [h]
  · intro hm
    unfold toggle_mode
    simp [hm]
  · intro hm
    unfold toggle_mode
    simp [hm]
  · intro c hc
    unfold copy_weights_button_pressed at hc
    rcases hu : ui.sourceItems with _ | ⟨s, rest⟩ <;> rw [hu] at hc
    · simp at hc
      simp [hc, Cmd.isCopyPipeline]
    · by_cases ht : ui.targetItems = []
      · simp [ht] at hc
        simp [hc, Cmd.isCopyPipeline]
      · simp [ht] at hc
        exact copyLoop_cmds s ui.targetItems sc ui c hc
  · intro c hc
    unfold copy_weights_one_to_one at hc
    by_cases h1 : ui.sourceItems = []
    · simp [h1] at hc
      simp [hc, Cmd.isCopyPipeline]
    · by_cases h2 : ui.targetItems = []
      · simp [h1, h2] at hc
        simp [hc, Cmd.isCopyPipeline]
      · by_cases h3 : ui.sourceItems.length = ui.targetItems.length
        · simp [h1, h2, h3] at hc
          exact copyPairsLoop_cmds (ui.sourceItems.zip ui.targetItems) sc ui c hc
        · simp [h1, h2, h3] at hc
          simp [hc, Cmd.isCopyPipeline]

/-- Fixture: unsorted source and target columns. -/
def uiUnsorted : UIState :=
  { uiEmpty with sourceItems := ["b", "a"], targetItems := ["d", "c"] }

/-- Witness for C5 (amended) at concrete states: two fresh selected
objects produce exactly the two appends, an empty widget selection
exactly the warning, clearing exactly one removeAll, sorting a two-item
column exactly one removeAll followed by the two appends, and toggling
from single-source mode exactly the three reconfiguration commands. -/
theorem callbacks_forward_their_action_witness :
    (add_to_source sceneAB uiEmpty).2.2 =
      (sceneAB.selection.filter (fun o => decide (o ∉ uiEmpty.sourceItems))).map
        (Cmd.appendItem ListWidget.source) ∧
    (remove_selected_from_source sceneAB uiEmpty).2.2 =
      [Cmd.warning "No item selected in the list."] ∧
    (clear_source_list sceneAB uiEmpty).2.2 = [Cmd.removeAll ListWidget.source] ∧
    (sort_column_a sceneAB uiUnsorted).2.2 =
      Cmd.removeAll ListWidget.source ::
        (uiUnsorted.sourceItems.mergeSort).map (Cmd.appendItem ListWidget.source) ∧
    (toggle_mode sceneAB uiEmpty).2.2 =
      [Cmd.editCopyButton "Copy Skin Weights (One-to-One)" Mode.oneToOne orangeColor,
       Cmd.editToggleButtonColor orangeColor,
       Cmd.setAllowMultiSelection ListWidget.source true] :=
  ⟨(callbacks_forward_their_action sceneAB uiEmpty).1.1 (by decide),
   (callbacks_forward_their_action sceneAB uiEmpty).2.2.1.2 rfl,
   (callbacks_forward_their_action sceneAB uiEmpty).2.2.2.2.1,
   (callbacks_forward_their_action sceneAB uiUnsorted).2.2.2.2.2.2.1.1 (by decide),
   (callbacks_forward_their_action sceneAB uiEmpty).2.2.2.2.2.2.2.2.1.1 rfl⟩

/-- Appending to a widget never touches the mode state (copy-button
label and multi-selection flag). -/
theorem appendOne_mode (ui : UIState) (w : ListWidget) (obj : String) :
    (ui.appendOne w obj).copyButtonLabel = ui.copyButtonLabel ∧
    (ui.appendOne w obj).sourceAllowMulti = ui.sourceAllowMulti := by
  cases w <;> simp [UIState.appendOne]

/-- Removing from a widget never touches the mode state. -/
theorem removeOne_mode (ui : UIState) (w : ListWidget) (item : String) :
    (ui.removeOne w item).copyButtonLabel = ui.copyButtonLabel ∧
    (ui.removeOne w item).sourceAllowMulti = ui.sourceAllowMulti := by
  cases w <;> simp [UIState.removeOne]

/-- The append loop never touches the mode state. -/
theorem addLoop_mode (w : ListWidget) (ex : List String) :
    ∀ (objs : List String) (ui : UIState),
      (addLoop w ex objs ui).1.copyButtonLabel = ui.copyButtonLabel ∧
      (addLoop w ex objs ui).1.sourceAllowMulti = ui.sourceAllowMulti := by
  intro objs
  induction objs with
  | nil => intro ui; simp [addLoop]
  | cons obj rest ih =>
      intro ui
      by_cases hm : obj ∈ ex
      · simp only [addLoop, if_pos hm]
        exact ih ui
      · simp only [addLoop, if_neg hm]
        obtain ⟨ha, hb⟩ := ih (ui.appendOne w obj)
        obtain ⟨hc, hd⟩ := appendOne_mode ui w obj
        exact ⟨ha.trans hc, hb.trans hd⟩

/-- The removal loop never touches the mode state. -/
theorem removeLoop_mode (w : ListWidget) :
    ∀ (items : List String) (ui : UIState),
      (removeLoop w items ui).1.copyButtonLabel = ui.copyButtonLabel ∧
      (removeLoop w items ui).1.sourceAllowMulti = ui.sourceAllowMulti := by
  intro items
  induction items with
  | nil => intro ui; simp [removeLoop]
  | cons item rest ih =>
      intro ui
      simp only [removeLoop]
      obtain ⟨ha, hb⟩ := ih (ui.removeOne w item)
      obtain ⟨hc, hd⟩ := removeOne_mode ui w item
      exact ⟨ha.trans hc, hb.trans hd⟩

/-- The single-source copy loop returns the UI state it was given. -/
theorem copyLoop_ui_id (source : String) (ts : List String) (sc : Scene) (ui : UIState) :
    (copyLoop source ts sc ui).2.1 = ui :=
  congrArg (fun p => p.2.1) (copyLoop_ui source ts sc ui ui)

/-- The one-to-one copy loop leaves the UI state unchanged and produces
a scene and trace independent of it. -/
theorem copyPairsLoop_ui (ps : List (String × String)) (sc : Scene) (ui ui2 : UIState) :
    copyPairsLoop ps sc ui =
      ((copyPairsLoop ps sc ui2).1, ui, (copyPairsLoop ps sc ui2).2.2) := by
  induction ps generalizing sc ui ui2 with
  | nil => simp [copyPairsLoop]
  | cons p rest ih =>
      obtain ⟨s, t⟩ := p
      simp only [copyPairsLoop]
      rw [copy_skin_weights_ui s t sc ui ui2,
          ih ((copy_skin_weights s t sc ui2).1) ui
            ((copy_skin_weights s t sc ui2).2.1)]

/-- The one-to-one copy loop returns the UI state it was given. -/
theorem copyPairsLoop_ui_id (ps : List (String × String)) (sc : Scene) (ui : UIState) :
    (copyPairsLoop ps sc ui).2.1 = ui :=
  congrArg (fun p => p.2.1) (copyPairsLoop_ui ps sc ui ui)

/-- C6 counterexample: `toggle_mode` leaves both string lists untouched
yet changes tool state outside them — the copy button's label — and that
extra state drives the next invocation to a different command trace, so
the two lists are not the program's entire mutable state. -/
theorem toggle_mode_state_outside_lists :
    (toggle_mode sceneAB uiEmpty).2.1.sourceItems = uiEmpty.sourceItems ∧
    (toggle_mode sceneAB uiEmpty).2.1.targetItems = uiEmpty.targetItems ∧
    (toggle_mode sceneAB uiEmpty).2.1.copyButtonLabel ≠ uiEmpty.copyButtonLabel ∧
    (toggle_mode sceneAB (toggle_mode sceneAB uiEmpty).2.1).2.2 ≠
      (toggle_mode sceneAB uiEmpty).2.2 := by
  refine ⟨by decide, by decide, by decide, by decide⟩

/-- C6 (amended): the tool's mutable state is the two string lists
together with the mode state the copy button carries (its label, plus
the source list's multi-selection flag).  The effects partition: the
list-management callbacks never change the mode state, the copy
callbacks change no UI state at all, and `toggle_mode` changes only the
mode state, never the two lists. -/
theorem mutable_state_partition (sc : Scene) (ui : UIState) :
    ((add_to_source sc ui).2.1.copyButtonLabel = ui.copyButtonLabel ∧
     (add_to_source sc ui).2.1.sourceAllowMulti = ui.sourceAllowMulti) ∧
    ((add_to_target sc ui).2.1.copyButtonLabel = ui.copyButtonLabel ∧
     (add_to_target sc ui).2.1.sourceAllowMulti = ui.sourceAllowMulti) ∧
    ((remove_selected_from_source sc ui).2.1.copyButtonLabel = ui.copyButtonLabel ∧
     (remove_selected_from_source sc ui).2.1.sourceAllowMulti = ui.sourceAllowMulti) ∧
    ((remove_selected_from_target sc ui).2.1.copyButtonLabel = ui.copyButtonLabel ∧
     (remove_selected_from_target sc ui).2.1.sourceAllowMulti = ui.sourceAllowMulti) ∧
    ((clear_source_list sc ui).2.1.copyButtonLabel = ui.copyButtonLabel ∧
     (clear_source_list sc ui).2.1.sourceAllowMulti = ui.sourceAllowMulti) ∧
    ((clear_target_list sc ui).2.1.copyButtonLabel = ui.copyButtonLabel ∧
     (clear_target_list sc ui).2.1.sourceAllowMulti = ui.sourceAllowMulti) ∧
    ((sort_column_a sc ui).2.1.copyButtonLabel = ui.copyButtonLabel ∧
     (sort_column_a sc ui).2.1.sourceAllowMulti = ui.sourceAllowMulti) ∧
    ((sort_column_b sc ui).2.1.copyButtonLabel = ui.copyButtonLabel ∧
     (sort_column_b sc ui).2.1.sourceAllowMulti = ui.sourceAllowMulti) ∧
    (copy_weights_button_pressed sc ui).2.1 = ui ∧
    (copy_weights_one_to_one sc ui).2.1 = ui ∧
    ((toggle_mode sc ui).2.1.sourceItems = ui.sourceItems ∧
     (toggle_mode sc ui).2.1.targetItems = ui.targetItems) := by
  refine ⟨?_, ?_, ?_, ?_, ?_, ?_, ?_, ?_, ?_, ?_, ?_⟩
  · unfold add_to_source
    by_cases hsel : sc.selection = [] <;> simp [hsel]
    exact addLoop_mode ListWidget.source ui.sourceItems sc.selection ui
  · unfold add_to_target
    by_cases hsel : sc.selection = [] <;> simp [hsel]
    exact addLoop_mode ListWidget.target ui.targetItems (gatherTargets sc sc.selection) ui
  · unfold remove_selected_from_source
    by_cases hsel : ui.sourceSelectedItems = [] <;> simp [hsel]
    exact removeLoop_mode ListWidget.source ui.sourceSelectedItems ui
  · unfold remove_selected_from_target
    by_cases hsel : ui.targetSelectedItems = [] <;> simp [hsel]
    exact removeLoop_mode ListWidget.target ui.targetSelectedItems ui
  · exact ⟨rfl, rfl⟩
  · exact ⟨rfl, rfl⟩
  · unfold sort_column_a
    by_cases hi : ui.sourceItems = [] <;> simp [hi]
  · unfold sort_column_b
    by_cases hi : ui.targetItems = [] <;> simp [hi]
  · unfold copy_weights_button_pressed
    rcases hu : ui.sourceItems with _ | ⟨s, rest⟩
    · rfl
    · by_cases ht : ui.targetItems = []
      · simp [ht]
      · simp [ht]
        exact copyLoop_ui_id s ui.targetItems sc ui
  · unfold copy_weights_one_to_one
    by_cases h1 : ui.sourceItems = []
    · simp [h1]
    · by_cases h2 : ui.targetItems = []
      · simp [h1, h2]
      · by_cases h3 : ui.sourceItems.length = ui.targetItems.length
        · simp [h1, h2, h3]
          exact copyPairsLoop_ui_id (ui.sourceItems.zip ui.targetItems) sc ui
        · simp [h1, h2, h3]
  · unfold toggle_mode
    by_cases hm : ui.copyButtonLabel = "Copy Skin Weights (Single Source)" <;>
      simp [hm]

/-- C8: every callback is a deterministic function of the UI state and
the scene state: two invocations of the same callback from identical
states produce identical results, in particular the same host-command
sequence with the same arguments. -/
theorem callbacks_deterministic (sc1 sc2 : Scene) (ui1 ui2 : UIState)
    (hsc : sc1 = sc2) (hui : ui1 = ui2) :
    add_to_source sc1 ui1 = add_to_source sc2 ui2 ∧
    add_to_target sc1 ui1 = add_to_target sc2 ui2 ∧
    remove_selected_from_source sc1 ui1 = remove_selected_from_source sc2 ui2 ∧
    remove_selected_from_target sc1 ui1 = remove_selected_from_target sc2 ui2 ∧
    copy_weights_button_pressed sc1 ui1 = copy_weights_button_pressed sc2 ui2 ∧
    copy_weights_one_to_one sc1 ui1 = copy_weights_one_to_one sc2 ui2 ∧
    clear_source_list sc1 ui1 = clear_source_list sc2 ui2 ∧
    clear_target_list sc1 ui1 = clear_target_list sc2 ui2 ∧
    toggle_mode sc1 ui1 = toggle_mode sc2 ui2 ∧
    sort_column_a sc1 ui1 = sort_column_a sc2 ui2 ∧
    sort_column_b sc1 ui1 = sort_column_b sc2 ui2 := by
  subst hsc
  subst hui
  exact ⟨rfl, rfl, rfl, rfl, rfl, rfl, rfl, rfl, rfl, rfl, rfl⟩

/-- Witness for C8 at a concrete state. -/
theorem callbacks_deterministic_witness :
    add_to_source sceneAB uiEmpty = add_to_source sceneAB uiEmpty ∧
    add_to_target sceneAB uiEmpty = add_to_target sceneAB uiEmpty ∧
    remove_selected_from_source sceneAB uiEmpty = remove_selected_from_source sceneAB uiEmpty ∧
    remove_selected_from_target sceneAB uiEmpty = remove_selected_from_target sceneAB uiEmpty ∧
    copy_weights_button_pressed sceneAB uiEmpty = copy_weights_button_pressed sceneAB uiEmpty ∧
    copy_weights_one_to_one sceneAB uiEmpty = copy_weights_one_to_one sceneAB uiEmpty ∧
    clear_source_list sceneAB uiEmpty = clear_source_list sceneAB uiEmpty ∧
    clear_target_list sceneAB uiEmpty = clear_target_list sceneAB uiEmpty ∧
    toggle_mode sceneAB uiEmpty = toggle_mode sceneAB uiEmpty ∧
    sort_column_a sceneAB uiEmpty = sort_column_a sceneAB uiEmpty ∧
    sort_column_b sceneAB uiEmpty = sort_column_b sceneAB uiEmpty :=
  callbacks_deterministic sceneAB sceneAB uiEmpty uiEmpty rfl rfl

/-- Scene for C9's failing input: a selected group `grp` whose only
descendant transform is the simultaneously selected leaf `child`, which
itself has no descendants. -/
def sceneGroup : Scene :=
  { selection := ["grp", "child"]
    relatedSkinCluster := fun _ => ""
    influences := fun _ => []
    bindSkin := fun _ _ => ""
    objectType := fun _ => "transform"
    allDescendentTransforms := fun o => if o = "grp" then ["child"] else [] }

/-- C9: evaluation of `add_to_target` at the failing input.  Selecting a
group together with its only child appends `child` twice, although the
code's own comment promises "Add objects to the list, ensuring no
duplicates": the membership test only consults the snapshot of the list
taken before the loop, never the items appended during the loop. -/
theorem add_to_target_creates_duplicate :
    (add_to_target sceneGroup uiEmpty).2.1.targetItems = ["child", "child"] ∧
    ¬ (add_to_target sceneGroup uiEmpty).2.1.targetItems.Nodup := by
  refine ⟨by decide, by decide⟩

/-- Unfolding of `sort_column_a` on a non-empty column. -/
theorem sort_column_a_items (sc : Scene) (ui : UIState) (h : ui.sourceItems ≠ []) :
    sort_column_a sc ui =
      (sc,
       { ui with sourceItems := ui.sourceItems.mergeSort, sourceSelectedItems := [] },
       Cmd.removeAll ListWidget.source ::
         (ui.sourceItems.mergeSort).map (Cmd.appendItem ListWidget.source)) := by
  unfold sort_column_a
  simp [h]

/-- Unfolding of `sort_column_a` on an empty column. -/
theorem sort_column_a_empty (sc : Scene) (ui : UIState) (h : ui.sourceItems = []) :
    sort_column_a sc ui = (sc, ui, []) := by
  unfold sort_column_a
  simp [h]

/-- Unfolding of `sort_column_b` on a non-empty column. -/
theorem sort_column_b_items (sc : Scene) (ui : UIState) (h : ui.targetItems ≠ []) :
    sort_column_b sc ui =
      (sc,
       { ui with targetItems := ui.targetItems.mergeSort, targetSelectedItems := [] },
       Cmd.removeAll ListWidget.target ::
         (ui.targetItems.mergeSort).map (Cmd.appendItem ListWidget.target)) := by
  unfold sort_column_b
  simp [h]

/-- Unfolding of `sort_column_b` on an empty column. -/
theorem sort_column_b_empty (sc : Scene) (ui : UIState) (h : ui.targetItems = []) :
    sort_column_b sc ui = (sc, ui, []) := by
  unfold sort_column_b
  simp [h]

/-- C10: each sort callback replaces its column's contents with the
alphabetically sorted permutation of the prior contents — no item is
added or lost — sorting twice gives the same UI state as sorting once,
and on an empty column the operation changes nothing and issues no
command. -/
theorem sort_columns_spec (sc : Scene) (ui : UIState) :
    ((sort_column_a sc ui).2.1.sourceItems.Perm ui.sourceItems ∧
     List.Sorted (· ≤ ·) (sort_column_a sc ui).2.1.sourceItems ∧
     (sort_column_a sc (sort_column_a sc ui).2.1).2.1 = (sort_column_a sc ui).2.1 ∧
     (ui.sourceItems = [] → sort_column_a sc ui = (sc, ui, []))) ∧
    ((sort_column_b sc ui).2.1.targetItems.Perm ui.targetItems ∧
     List.Sorted (· ≤ ·) (sort_column_b sc ui).2.1.targetItems ∧
     (sort_column_b sc (sort_column_b sc ui).2.1).2.1 = (sort_column_b sc ui).2.1 ∧
     (ui.targetItems = [] → sort_column_b sc ui = (sc, ui, []))) := by
  constructor
  · by_cases hi : ui.sourceItems = []
    · have he := sort_column_a_empty sc ui hi
      have hu : (sort_column_a sc ui).2.1 = ui := by rw [he]
      refine ⟨?_, ?_, ?_, fun _ => he⟩
      · rw [hu]
      · rw [hu, hi]
        exact List.sorted_nil
      · rw [hu]
        exact hu
    · have he := sort_column_a_items sc ui hi
      have hu : (sort_column_a sc ui).2.1 =
          { ui with sourceItems := ui.sourceItems.mergeSort,
                    sourceSelectedItems := [] } := by
        rw [he]
      have hsorted : List.Sorted (· ≤ ·) ui.sourceItems.mergeSort :=
        List.sorted_mergeSort' ui.sourceItems
      have hperm : ui.sourceItems.mergeSort.Perm ui.sourceItems :=
        List.mergeSort_perm ui.sourceItems _
      have hne : ui.sourceItems.mergeSort ≠ [] := by
        intro h0
        apply hi
        have hl := hperm.length_eq
        rw [h0] at hl
        exact List.length_eq_zero.mp hl.symm
      refine ⟨?_, ?_, ?_, fun hcon => absurd hcon hi⟩
      · rw [hu]
        exact hperm
      · rw [hu]
        exact hsorted
      · rw [hu]
        rw [sort_column_a_items sc _ hne]
        simp only [List.mergeSort_eq_self hsorted]
  · by_cases hi : ui.targetItems = []
    · have he := sort_column_b_empty sc ui hi
      have hu : (sort_column_b sc ui).2.1 = ui := by rw [he]
      refine ⟨?_, ?_, ?_, fun _ => he⟩
      · rw [hu]
      · rw [hu, hi]
        exact List.sorted_nil
      · rw [hu]
        exact hu
    · have he := sort_column_b_items sc ui hi
      have hu : (sort_column_b sc ui).2.1 =
          { ui with targetItems := ui.targetItems.mergeSort,
                    targetSelectedItems := [] } := by
        rw [he]
      have hsorted : List.Sorted (· ≤ ·) ui.targetItems.mergeSort :=
        List.sorted_mergeSort' ui.targetItems
      have hperm : ui.targetItems.mergeSort.Perm ui.targetItems :=
        List.mergeSort_perm ui.targetItems _
      have hne : ui.targetItems.mergeSort ≠ [] := by
        intro h0
        apply hi
        have hl := hperm.length_eq
        rw [h0] at hl
        exact List.length_eq_zero.mp hl.symm
      refine ⟨?_, ?_, ?_, fun hcon => absurd hcon hi⟩
      · rw [hu]
        exact hperm
      · rw [hu]
        exact hsorted
      · rw [hu]
        rw [sort_column_b_items sc _ hne]
        simp only [List.mergeSort_eq_self hsorted]

/-- Witness for C10 at concrete states: a non-empty column is sorted
into a permutation, and an empty column is left alone. -/
theorem sort_columns_spec_witness :
    (sort_column_a sceneAB uiUnsorted).2.1.sourceItems.Perm uiUnsorted.sourceItems ∧
    List.Sorted (· ≤ ·) (sort_column_a sceneAB uiUnsorted).2.1.sourceItems ∧
    (sort_column_b sceneAB uiUnsorted).2.1.targetItems.Perm uiUnsorted.targetItems ∧
    sort_column_a sceneAB uiEmpty = (sceneAB, uiEmpty, []) :=
  ⟨(sort_columns_spec sceneAB uiUnsorted).1.1,
   (sort_columns_spec sceneAB uiUnsorted).1.2.1,
   (sort_columns_spec sceneAB uiUnsorted).2.1,
   (sort_columns_spec sceneAB uiEmpty).1.2.2.2 rfl⟩
